import Mathlib

/-!
Verification of the session-manager service (`src/session-manager/main.py`):
the OpenID relying-party login flow, the team-membership authorization gate,
the browser session lifecycle, and the proxy verification endpoint.

The Python handlers are embedded as pure Lean functions.  HTTP exceptions
become an explicit error constructor; the signed-cookie browser session
(`request.session`) becomes an explicit `BrowserSession` value threaded
through each handler; calls into the third-party OpenID consumer library are
passed in as explicit inputs (an `Except` value for the paths that may raise).
-/

namespace SessionManager

/-- Configured required team, `SSO_TEAM` in main.py. -/
def SSO_TEAM : String := "canonical-webmonkeys"

/-- Configured provider URL, `SSO_LOGIN_URL` in main.py. -/
def SSO_LOGIN_URL : String := "https://login.ubuntu.com"

/-- Status values of a completed python-openid consumer response:
`consumer.SUCCESS`, `consumer.CANCEL`, `consumer.FAILURE`, and
`consumer.SETUP_NEEDED` (the only other status value the library defines,
reaching the `else` branch of `handle_callback`). -/
inductive OidStatus
  | success
  | cancel
  | failure
  | setupNeeded
  deriving DecidableEq

/-- A completed provider response as consumed by `handle_callback`:
`response.status`, `response.identity_url`, the parsed team-membership
extension (`TeamsResponse.fromSuccessResponse`, `none` when the extension is
absent from the response, otherwise its `is_member` list), the parsed
Simple-Registration extension (`none` when absent, otherwise the optional
`email` attribute), and `response.message`. -/
structure ProviderResponse where
  status : OidStatus
  identity_url : String
  is_member : Option (List String)
  sreg_email : Option (Option String)
  message : String
  deriving DecidableEq

/-- The user-info dictionary returned by `handle_callback` and stored in the
browser session: `{"identity_url": ..., "email": ..., "teams": ...}`. -/
structure UserInfo where
  identity_url : String
  email : Option String
  teams : List String
  deriving DecidableEq

/-- Outcome of `handle_callback`: the returned user-info dictionary, or an
`HTTPException(status_code, detail)`. -/
inductive HandlerResult
  | ok (user : UserInfo)
  | httpError (status_code : Nat) (detail : String)
  deriving DecidableEq

/-- Python `sreg_response.get("email") if sreg_response else None`: flattens
the optional Simple-Registration extension and its optional email field. -/
def sreg_get_email (sr : Option (Option String)) : Option String :=
  match sr with
  | some e => e
  | none => none

/-- The status dispatch of `OpenIDAuth.handle_callback` (main.py lines
114-154), applied to a completed provider response.  Mirrors the Python
exactly: on `SUCCESS`, the team check runs only when
`TeamsResponse.fromSuccessResponse` returned a truthy value
(`if teams_response and self.team not in teams_response.is_member`), and the
returned `teams` list is `is_member` when that value is present, else `[]`. -/
def handle_callback_core (team : String) (resp : ProviderResponse) : HandlerResult :=
  match resp.status with
  | .success =>
      match resp.is_member with
      | some members =>
          if team ∉ members then
            .httpError 403 "Access denied - not a team member"
          else
            .ok { identity_url := resp.identity_url
                  email := sreg_get_email resp.sreg_email
                  teams := members }
      | none =>
          .ok { identity_url := resp.identity_url
                email := sreg_get_email resp.sreg_email
                teams := [] }
  | .cancel => .httpError 400 "Authentication cancelled"
  | .failure => .httpError 403 "Authentication failed"
  | .setupNeeded => .httpError 400 "Unknown authentication status"

/-- `OpenIDAuth.handle_callback` with its surrounding `try`/`except`
(main.py lines 100-162).  The input is the outcome of
`oid_consumer.complete(...)` together with the extension parsing: a completed
response, or an exception (carrying its message).  `HTTPException` raised by
the dispatch is re-raised unchanged; any other exception becomes
`HTTPException(400, "Authentication callback failed")`. -/
def handle_callback (team : String) (completed : Except String ProviderResponse) :
    HandlerResult :=
  match completed with
  | .ok resp => handle_callback_core team resp
  | .error _ => .httpError 400 "Authentication callback failed"

/-- The per-browser signed-cookie session (`request.session` under
`SessionMiddleware`): the stored user record (key `"user"`, absent for an
anonymous browser, and absent equally for a missing, expired or cleared
cookie) and the stored post-login destination (key `"next_url"`). -/
structure BrowserSession where
  user : Option UserInfo
  next_url : Option String
  deriving DecidableEq

/-- The provider authorization URL as assembled by the library
`auth_request.redirectURL(trust_root, return_to)`: realm (trust root),
return_to, the identifier-select marker (the consumer was begun against the
provider base URL, so the provider performs user identification), and the
attached extensions. -/
structure AuthURL where
  realm : String
  return_to : String
  identifier_select : Bool
  sreg_required : List String
  teams_query : List String
  deriving DecidableEq

/-- A response produced by one of the FastAPI endpoints: a
`RedirectResponse` to a plain URL, a `RedirectResponse` to a provider
authorization URL, a 200 `JSONResponse` carrying injected headers (encoded
header values, plain strings — the only header values an HTTP response can
carry), an `HTTPException` rendered as an error response, or an exception
escaping the endpoint body unhandled (rendered by the framework as a 500
internal server error). -/
inductive EndpointResponse
  | redirect (url : String)
  | redirectProvider (url : AuthURL)
  | jsonOk (headers : List (String × String))
  | error (status_code : Nat) (detail : String)
  | unhandled (exc : String)
  deriving DecidableEq

/-- The `/callback` endpoint (main.py lines 199-210): runs
`handle_callback`; on success stores the user record in the session, pops the
stored `next_url` (default `"/"`) and redirects to it; an `HTTPException`
propagates with the session unchanged. -/
def callback (team : String) (st : BrowserSession)
    (completed : Except String ProviderResponse) :
    BrowserSession × EndpointResponse :=
  match handle_callback team completed with
  | .ok user_info =>
      ({ user := some user_info, next_url := none },
       .redirect (st.next_url.getD "/"))
  | .httpError code detail => (st, .error code detail)

/-- The scheme and netloc of the inbound request URL (`request.url.scheme`,
`request.url.netloc`). -/
structure RequestURL where
  scheme : String
  netloc : String
  deriving DecidableEq

/-- `OpenIDAuth.build_trust_root` (main.py lines 59-61). -/
def build_trust_root (u : RequestURL) : String :=
  u.scheme ++ "://" ++ u.netloc

/-- `OpenIDAuth.build_return_to` (main.py lines 63-65). -/
def build_return_to (u : RequestURL) : String :=
  u.scheme ++ "://" ++ u.netloc ++ "/callback"

/-- An in-progress library `AuthRequest` accumulating extensions via
`addExtension`.  `oid_consumer.begin` returns a fresh request with no
extensions attached. -/
structure AuthRequestM where
  sreg_required : List String := []
  teams_query : List String := []
  deriving DecidableEq

/-- Modelled from the spec: `auth_request.addExtension(SRegRequest(required=...))`
of the python-openid library, which is not part of src/; per the spec the
authorization URL carries "the Simple-Registration extension requesting
`email`". -/
def addSRegExtension (ar : AuthRequestM) (required : List String) : AuthRequestM :=
  { ar with sreg_required := required }

/-- Modelled from the spec: `auth_request.addExtension(TeamsRequest(query_membership=...))`
of the django-openid-auth teams extension, which is not part of src/; per the
spec the authorization URL carries "the team-membership extension requesting
the configured team". -/
def addTeamsExtension (ar : AuthRequestM) (query_membership : List String) : AuthRequestM :=
  { ar with teams_query := query_membership }

/-- Modelled from the spec: `auth_request.redirectURL(trust_root, return_to)`
of the python-openid library, which is not part of src/; per the spec it
builds the URL from the protocol marker, identifier-selection mode, the two
URL arguments and the attached extensions. -/
def redirectURL (ar : AuthRequestM) (trust_root return_to : String) : AuthURL :=
  { realm := trust_root
    return_to := return_to
    identifier_select := true
    sreg_required := ar.sreg_required
    teams_query := ar.teams_query }

/-- Failure modes of `oid_consumer.begin` and the subsequent URL
construction: `DiscoveryFailure`, or any other exception. -/
inductive BeginError
  | discoveryFailure (msg : String)
  | otherError (msg : String)
  deriving DecidableEq

/-- `OpenIDAuth.initiate_login` (main.py lines 67-98).  The outcome of
`oid_consumer.begin` is an explicit input; on success the two extensions are
attached and the redirect URL built; `DiscoveryFailure` becomes
`HTTPException(500, "Authentication service unavailable")` and any other
exception becomes `HTTPException(500, "Login failed")`. -/
def initiate_login (team : String) (u : RequestURL)
    (beginResult : Except BeginError Unit) : Except (Nat × String) AuthURL :=
  match beginResult with
  | .ok _ =>
      let auth_request : AuthRequestM := {}
      let auth_request := addSRegExtension auth_request ["email"]
      let auth_request := addTeamsExtension auth_request [team]
      let trust_root := build_trust_root u
      let return_to := build_return_to u
      .ok (redirectURL auth_request trust_root return_to)
  | .error (.discoveryFailure _) => .error (500, "Authentication service unavailable")
  | .error (.otherError _) => .error (500, "Login failed")

/-- Python truthiness fallback `next_url or next` in the `/login` endpoint:
`next_url` wins only when it is present and non-empty (both `None` and the
empty string are falsy). -/
def pyOrStr (a : Option String) (b : String) : String :=
  match a with
  | some s => if s = "" then b else s
  | none => b

/-- The `/login` endpoint (main.py lines 181-196).  `nextp` is the `next`
query parameter (FastAPI default `"/"` when absent), `next_urlp` the optional
`next_url` query parameter.  If the session already holds a user record the
handler returns a redirect to `next_url or next` immediately; otherwise it
stores that destination under `"next_url"` and then redirects to the provider
authorization URL (or propagates the `HTTPException` from `initiate_login`,
the stored destination surviving either way). -/
def login (team : String) (st : BrowserSession) (nextp : String)
    (next_urlp : Option String) (u : RequestURL)
    (beginResult : Except BeginError Unit) : BrowserSession × EndpointResponse :=
  let redirect_after_login := pyOrStr next_urlp nextp
  if st.user.isSome then
    (st, .redirect redirect_after_login)
  else
    let st' : BrowserSession := { st with next_url := some redirect_after_login }
    match initiate_login team u beginResult with
    | .ok auth_url => (st', .redirectProvider auth_url)
    | .error (code, detail) => (st', .error code detail)

/-- Outcome of the `login_required` dependency (main.py lines 168-178): the
stored user record, or `HTTPException(401, ...)` whose detail embeds the
current request URL. -/
inductive AuthCheck
  | authenticated (user : UserInfo)
  | unauthenticated (detail : String)
  deriving DecidableEq

/-- `login_required` (main.py lines 168-178): reads
`request.session.get("user")`; a missing record (no cookie, expired cookie,
or cleared session) raises 401 with a login hint, otherwise the record is
returned. -/
def login_required (st : BrowserSession) (current_url : String) : AuthCheck :=
  match st.user with
  | some u => .authenticated u
  | none =>
      .unauthenticated
        ("Not authenticated. Please login at /login?next_url=" ++ current_url)

/-- Modelled from the spec: the header encoding of Starlette
`JSONResponse(content=..., headers=...)` is not part of src/.  Each header
value in the dict is encoded as a string (`value.encode("latin-1")`); a
`None` value has no such method, so encoding raises `AttributeError`, which
escapes the endpoint body. -/
def encodeHeaderValues (headers : List (String × Option String)) :
    Except String (List (String × String)) :=
  match headers with
  | [] => .ok []
  | (k, some v) :: rest => (encodeHeaderValues rest).map (fun tl => (k, v) :: tl)
  | (_, none) :: _ => .error "AttributeError"

/-- The `/verify-and-inject` endpoint (main.py lines 220-229): via
`login_required`, responds 401 when no user record is present; otherwise the
headers dict is built from the stored record (`user.get("email", "")`,
`user.get("identity_url", "")`, `"true"`; both keys are always present in a
stored record, so `get` returns the stored values — a stored `None` email
stays `None`) and handed to `JSONResponse`.  A `None` header value makes the
header encoding raise, an unhandled error; otherwise the response is 200
with the encoded headers. -/
def verify_and_inject (st : BrowserSession) (current_url : String) : EndpointResponse :=
  match login_required st current_url with
  | .unauthenticated detail => .error 401 detail
  | .authenticated u =>
      match encodeHeaderValues
          [("X-User-Email", u.email),
           ("X-User-Identity", some u.identity_url),
           ("X-Authenticated", some "true")] with
      | .ok hs => .jsonOk hs
      | .error exc => .unhandled exc

/-- The `/logout` endpoint (main.py lines 213-217): clears the session and
redirects to the root. -/
def logout (_st : BrowserSession) : BrowserSession × EndpointResponse :=
  ({ user := none, next_url := none }, .redirect "/")

/-- The raw callback query parameters handed to `oid_consumer.complete`:
the `openid.mode` value, the provider response nonce, whether the provider
affirms the assertion when the consumer verifies it, and the asserted
identity and extension payloads. -/
structure OidQuery where
  mode : String
  response_nonce : String
  assertion_valid : Bool
  identity_url : String
  is_member : Option (List String)
  sreg_email : Option (Option String)
  deriving DecidableEq

/-- Modelled from the spec: `oid_consumer.complete(query_params, current_url)`
of the python-openid library together with the nonce tracking of
`openid_store` (main.py line 31) is not part of src/.  Per the spec, a mode
other than the positive assertion yields a cancelled or failed status; a
positive assertion is verified against the provider, any response not
unambiguously affirming validity is a failure; and an assertion is consumed
at most once: its response nonce is recorded in the store and a replayed
nonce fails verification.  Returns the updated used-nonce store and the
completed response. -/
def consumerComplete (used_nonces : List String) (q : OidQuery) :
    List String × Except String ProviderResponse :=
  if q.mode = "id_res" then
    if q.assertion_valid then
      if q.response_nonce ∈ used_nonces then
        (used_nonces,
         .ok { status := .failure, identity_url := q.identity_url,
               is_member := none, sreg_email := none,
               message := "Nonce already used" })
      else
        (q.response_nonce :: used_nonces,
         .ok { status := .success, identity_url := q.identity_url,
               is_member := q.is_member, sreg_email := q.sreg_email,
               message := "" })
    else
      (used_nonces,
       .ok { status := .failure, identity_url := q.identity_url,
             is_member := none, sreg_email := none,
             message := "Verification failed" })
  else if q.mode = "cancel" then
    (used_nonces,
     .ok { status := .cancel, identity_url := "", is_member := none,
           sreg_email := none, message := "" })
  else
    (used_nonces,
     .ok { status := .failure, identity_url := "", is_member := none,
           sreg_email := none, message := "Invalid openid.mode" })

/-- The `/callback` endpoint run end to end from the raw query parameters:
`consumerComplete` against the shared nonce store, then the `callback`
handler on the browser session. -/
def callbackFull (team : String) (used_nonces : List String)
    (st : BrowserSession) (q : OidQuery) :
    (List String × BrowserSession) × EndpointResponse :=
  let step := consumerComplete used_nonces q
  let outcome := callback team st step.2
  ((step.1, outcome.1), outcome.2)

/-- Claim C1, counterexample.  The claim states that a user session exists
only if the identity assertion passed verification AND satisfied the
authorization policy (required team in the teams set).  On a verified
success response that carries no team-membership extension at all
(`is_member = none`), the team check is skipped and `callback` stores a
session whose `teams` list is empty — so the required team is not in the
teams set, refuting the invariant as stated. -/
theorem c1_counterexample :
    (callback SSO_TEAM ⟨none, some "/dash"⟩
        (.ok ⟨.success, "https://login.ubuntu.com/+id/u1", none,
              some (some "a@x.com"), ""⟩)).1.user
      = some ⟨"https://login.ubuntu.com/+id/u1", some "a@x.com", []⟩
    ∧ SSO_TEAM ∉ (⟨"https://login.ubuntu.com/+id/u1", some "a@x.com", []⟩ : UserInfo).teams := by
  exact ⟨rfl, by decide⟩

/-- Claim C1, amended.  When provider verification succeeds and a
team-membership claim is present but excludes the required team, the
response is HTTP 403 and the session is unchanged (no session is created);
and in general a callback changes the stored user record only when the
assertion passed verification and either the team-membership extension was
absent (the check is skipped) or the required team is in the claimed teams
set. -/
theorem c1_amended (team : String) (st : BrowserSession) (resp : ProviderResponse)
    (members : List String) (hs : resp.status = .success)
    (hm : resp.is_member = some members) (hteam : team ∉ members) :
    callback team st (.ok resp) = (st, .error 403 "Access denied - not a team member")
    ∧ ∀ completed : Except String ProviderResponse,
        (callback team st completed).1.user = st.user
        ∨ ∃ r2, completed = .ok r2 ∧ r2.status = .success
            ∧ (r2.is_member = none ∨ ∃ ms, r2.is_member = some ms ∧ team ∈ ms) := by
  constructor
  · simp [callback, handle_callback, handle_callback_core, hs, hm, hteam]
  · intro completed
    match completed with
    | .error e => exact Or.inl rfl
    | .ok r2 =>
      cases hr : r2.status with
      | success =>
        cases him : r2.is_member with
        | none => exact Or.inr ⟨r2, rfl, hr, Or.inl him⟩
        | some ms =>
          by_cases hmem : team ∈ ms
          · exact Or.inr ⟨r2, rfl, hr, Or.inr ⟨ms, him, hmem⟩⟩
          · left
            simp [callback, handle_callback, handle_callback_core, hr, him, hmem]
      | cancel => left; simp [callback, handle_callback, handle_callback_core, hr]
      | failure => left; simp [callback, handle_callback, handle_callback_core, hr]
      | setupNeeded => left; simp [callback, handle_callback, handle_callback_core, hr]

/-- Claim C1, witness: a concrete verified response whose teams claim is
present but excludes the required team is rejected with 403 and the session
is unchanged. -/
theorem c1_amended_witness :
    callback "t" ⟨none, none⟩ (.ok ⟨.success, "id", some ["u"], none, ""⟩)
      = (⟨none, none⟩, .error 403 "Access denied - not a team member") :=
  (c1_amended "t" ⟨none, none⟩ ⟨.success, "id", some ["u"], none, ""⟩ ["u"]
    rfl rfl (by decide)).1

/-- Claim C2: when a provider response has SUCCESS status but carries no
team-membership extension response (`TeamsResponse.fromSuccessResponse`
falsy), the team check is skipped, `handle_callback` returns a user record
with an empty teams list, and the `callback` endpoint stores that record in
the session and redirects. -/
theorem c2_missing_teams_extension (team : String) (st : BrowserSession)
    (resp : ProviderResponse) (hs : resp.status = .success)
    (hm : resp.is_member = none) :
    handle_callback team (.ok resp)
      = .ok ⟨resp.identity_url, sreg_get_email resp.sreg_email, []⟩
    ∧ callback team st (.ok resp)
      = (⟨some ⟨resp.identity_url, sreg_get_email resp.sreg_email, []⟩, none⟩,
         .redirect (st.next_url.getD "/")) := by
  constructor
  · simp [handle_callback, handle_callback_core, hs, hm]
  · simp [callback, handle_callback, handle_callback_core, hs, hm]

/-- Claim C2, witness: a concrete SUCCESS response with no teams extension
yields an authenticated session with an empty teams list. -/
theorem c2_missing_teams_extension_witness :
    handle_callback "t" (.ok ⟨.success, "id", none, some (some "e@x"), ""⟩)
      = .ok ⟨"id", some "e@x", []⟩
    ∧ callback "t" ⟨none, some "/d"⟩ (.ok ⟨.success, "id", none, some (some "e@x"), ""⟩)
      = (⟨some ⟨"id", some "e@x", []⟩, none⟩, .redirect "/d") :=
  c2_missing_teams_extension "t" ⟨none, some "/d"⟩
    ⟨.success, "id", none, some (some "e@x"), ""⟩ rfl rfl

/-- Claim C3: every completed provider response whose status is not SUCCESS
makes the callback respond with one of the fixed 400/403 rejections
(cancelled, failed, unknown status), and the browser session is unchanged —
no user session is stored. -/
theorem c3_non_success_rejected (team : String) (st : BrowserSession)
    (resp : ProviderResponse) (h : resp.status ≠ .success) :
    ((callback team st (.ok resp)).2 = .error 400 "Authentication cancelled"
      ∨ (callback team st (.ok resp)).2 = .error 403 "Authentication failed"
      ∨ (callback team st (.ok resp)).2 = .error 400 "Unknown authentication status")
    ∧ (callback team st (.ok resp)).1 = st := by
  cases hr : resp.status with
  | success => exact absurd hr h
  | cancel =>
      refine ⟨Or.inl ?_, ?_⟩ <;>
        simp [callback, handle_callback, handle_callback_core, hr]
  | failure =>
      refine ⟨Or.inr (Or.inl ?_), ?_⟩ <;>
        simp [callback, handle_callback, handle_callback_core, hr]
  | setupNeeded =>
      refine ⟨Or.inr (Or.inr ?_), ?_⟩ <;>
        simp [callback, handle_callback, handle_callback_core, hr]

/-- Claim C3, witness: a concrete cancelled response is rejected and leaves
the session unchanged. -/
theorem c3_non_success_rejected_witness :
    ((callback "t" ⟨none, none⟩ (.ok ⟨.cancel, "", none, none, ""⟩)).2
        = .error 400 "Authentication cancelled"
      ∨ (callback "t" ⟨none, none⟩ (.ok ⟨.cancel, "", none, none, ""⟩)).2
        = .error 403 "Authentication failed"
      ∨ (callback "t" ⟨none, none⟩ (.ok ⟨.cancel, "", none, none, ""⟩)).2
        = .error 400 "Unknown authentication status")
    ∧ (callback "t" ⟨none, none⟩ (.ok ⟨.cancel, "", none, none, ""⟩)).1
        = ⟨none, none⟩ :=
  c3_non_success_rejected "t" ⟨none, none⟩ ⟨.cancel, "", none, none, ""⟩ (by decide)

/-- Claim C4: evaluation of the code at the failing input.  A verified
SUCCESS callback with no Simple-Registration extension stores a user record
whose email is `None`; on a later `/verify-and-inject` request the header
dict then carries `X-User-Email: None`, whose encoding raises — an unhandled
error escaping the endpoint, a third outcome beyond the 401/200 pair the
claim permits.  With a present email the endpoint does resolve to 200 with
the three headers, and with no record to 401, so the failure is exactly the
`None`-email path. -/
theorem c4_verify_and_inject_crash :
    (callback SSO_TEAM ⟨none, none⟩
        (.ok ⟨.success, "https://login.ubuntu.com/+id/u1", none, none, ""⟩)).1.user
      = some ⟨"https://login.ubuntu.com/+id/u1", none, []⟩
    ∧ verify_and_inject ⟨some ⟨"https://login.ubuntu.com/+id/u1", none, []⟩, none⟩ "u"
      = .unhandled "AttributeError"
    ∧ verify_and_inject ⟨some ⟨"https://login.ubuntu.com/+id/u1", some "a@x.com", []⟩, none⟩ "u"
      = .jsonOk [("X-User-Email", "a@x.com"),
                 ("X-User-Identity", "https://login.ubuntu.com/+id/u1"),
                 ("X-Authenticated", "true")]
    ∧ verify_and_inject ⟨none, none⟩ "u"
      = .error 401 "Not authenticated. Please login at /login?next_url=u" := by
  refine ⟨rfl, rfl, rfl, rfl⟩

/-- Claim C5: evaluation of the code at the failing input.  A login request
supplying an arbitrary external URL as `next_url` stores it verbatim, and a
subsequent successful callback redirects the browser to that external URL —
the same-origin constraint the claim requires is absent from the code. -/
theorem c5_open_redirect :
    (login SSO_TEAM ⟨none, none⟩ "/" (some "https://evil.example/phish")
        ⟨"https", "demo.myapp.local"⟩ (.ok ())).1.next_url
      = some "https://evil.example/phish"
    ∧ (callback SSO_TEAM
        (login SSO_TEAM ⟨none, none⟩ "/" (some "https://evil.example/phish")
          ⟨"https", "demo.myapp.local"⟩ (.ok ())).1
        (.ok ⟨.success, "https://login.ubuntu.com/+id/u1", some [SSO_TEAM],
              some (some "a@x.com"), ""⟩)).2
      = .redirect "https://evil.example/phish" := by
  exact ⟨rfl, by decide⟩

/-- Claim C7: for every login initiation, the provider authorization URL has
`return_to` equal to the origin followed by `/callback`, realm (trust root)
equal to the origin, identifier-selection mode, the Simple-Registration
extension requesting `email`, and the team-membership extension querying the
configured required team. -/
theorem c7_initiate_login_url (team : String) (u : RequestURL) :
    initiate_login team u (.ok ())
      = .ok { realm := build_trust_root u
              return_to := build_trust_root u ++ "/callback"
              identifier_select := true
              sreg_required := ["email"]
              teams_query := [team] } := rfl

/-- Claim C6: a pending login flow is consumable at most once.  Whatever the
outcome of a first callback on query parameters `q` (success, policy denial,
cancellation or failure), replaying the identical parameters against the
resulting nonce store and browser session leaves the stored user record
exactly as the first run left it: no second session is created and an
existing one is not extended. -/
theorem c6_callback_replay_single_use (team : String) (used_nonces : List String)
    (st : BrowserSession) (q : OidQuery) :
    ((callbackFull team
        (callbackFull team used_nonces st q).1.1
        (callbackFull team used_nonces st q).1.2 q).1.2).user
      = ((callbackFull team used_nonces st q).1.2).user := by
  by_cases hm : q.mode = "id_res"
  · by_cases hv : q.assertion_valid
    · by_cases hn : q.response_nonce ∈ used_nonces
      · simp [callbackFull, consumerComplete, hm, hv, hn, callback,
              handle_callback, handle_callback_core]
      · cases him : q.is_member with
        | none =>
            simp [callbackFull, consumerComplete, hm, hv, hn, him, callback,
                  handle_callback, handle_callback_core]
        | some ms =>
            by_cases hms : team ∈ ms
            · simp [callbackFull, consumerComplete, hm, hv, hn, him, hms,
                    callback, handle_callback, handle_callback_core]
            · simp [callbackFull, consumerComplete, hm, hv, hn, him, hms,
                    callback, handle_callback, handle_callback_core]
    · simp [callbackFull, consumerComplete, hm, hv, callback,
            handle_callback, handle_callback_core]
  · by_cases hc : q.mode = "cancel"
    · simp [callbackFull, consumerComplete, hm, hc, callback,
            handle_callback, handle_callback_core]
    · simp [callbackFull, consumerComplete, hm, hc, callback,
            handle_callback, handle_callback_core]

/-- Claim C8, counterexample.  The claim states that when a login request
arrives from a browser that is already authenticated, the handler redirects
to the STORED next_url destination.  In the code the short-circuit redirect
goes to the destination computed from the current request query parameters;
the session-stored `next_url` is not consulted: with `"/old"` stored and
`?next_url=/new` supplied, the redirect is to `"/new"`, not `"/old"`. -/
theorem c8_counterexample :
    (⟨some ⟨"id", some "a@x.com", ["canonical-webmonkeys"]⟩, some "/old"⟩ :
        BrowserSession).next_url = some "/old"
    ∧ (login SSO_TEAM ⟨some ⟨"id", some "a@x.com", ["canonical-webmonkeys"]⟩, some "/old"⟩
        "/" (some "/new") ⟨"https", "demo.myapp.local"⟩ (.ok ())).2
      = .redirect "/new"
    ∧ (login SSO_TEAM ⟨some ⟨"id", some "a@x.com", ["canonical-webmonkeys"]⟩, some "/old"⟩
        "/" (some "/new") ⟨"https", "demo.myapp.local"⟩ (.ok ())).2
      ≠ .redirect "/old" := by
  refine ⟨rfl, by decide, by decide⟩

/-- Claim C8, amended.  When the session already holds a user record, the
login handler short-circuits: for every possible provider interaction
outcome it returns a redirect to the destination computed from the current
request parameters (`next_url` if non-empty, else `next`), the session is
unchanged (no pending state is stored), and no provider redirect is issued. -/
theorem c8_amended (team : String) (st : BrowserSession) (nextp : String)
    (next_urlp : Option String) (u : RequestURL) (h : st.user.isSome) :
    ∀ beginResult : Except BeginError Unit,
      login team st nextp next_urlp u beginResult
        = (st, .redirect (pyOrStr next_urlp nextp)) := by
  intro beginResult
  simp [login, h]

/-- Claim C8, witness: a concrete already-authenticated session
short-circuits to the requested destination with the session unchanged. -/
theorem c8_amended_witness :
    login SSO_TEAM ⟨some ⟨"id", none, []⟩, none⟩ "/" (some "/x") ⟨"https", "h"⟩ (.ok ())
      = (⟨some ⟨"id", none, []⟩, none⟩, .redirect "/x") :=
  c8_amended SSO_TEAM ⟨some ⟨"id", none, []⟩, none⟩ "/" (some "/x") ⟨"https", "h"⟩
    rfl (.ok ())

/-- Claim C9: every provider or network failure in the handshake is caught
at the handler boundary and converted into an `HTTPException` whose detail
is one of the fixed generic messages, independent of the raw error message —
a discovery failure in login initiation yields 500 "Authentication service
unavailable", any other initiation exception yields 500 "Login failed", and
any exception inside callback handling yields 400 "Authentication callback
failed" with the session unchanged. -/
theorem c9_failures_generic (team : String) (u : RequestURL) (st : BrowserSession)
    (msg : String) :
    initiate_login team u (.error (.discoveryFailure msg))
      = .error (500, "Authentication service unavailable")
    ∧ initiate_login team u (.error (.otherError msg)) = .error (500, "Login failed")
    ∧ handle_callback team (.error msg) = .httpError 400 "Authentication callback failed"
    ∧ callback team st (.error msg) = (st, .error 400 "Authentication callback failed") :=
  ⟨rfl, rfl, rfl, rfl⟩

/-- Claim C10, counterexample.  The claim states the stored destination is
the `next_url` query parameter whenever one is supplied.  A supplied but
empty `next_url` is falsy in Python, so `next_url or next` falls back to
`next`: with `?next_url=&next=/a` the stored destination is `"/a"`, not the
supplied `""`. -/
theorem c10_counterexample :
    (login SSO_TEAM ⟨none, none⟩ "/a" (some "") ⟨"https", "h"⟩ (.ok ())).1.next_url
      = some "/a"
    ∧ some "/a" ≠ (some "" : Option String) := by
  refine ⟨by decide, by decide⟩

/-- Claim C10, amended.  For a login request from an anonymous browser, the
stored post-login destination is the `next_url` parameter when it is
supplied non-empty; an empty or absent `next_url` falls back to the `next`
parameter, which defaults to `"/"` when itself absent; and after a login
with neither parameter, completing the flow redirects to `"/"` (or is an
error response). -/
theorem c10_amended (team : String) (st : BrowserSession) (nextp s : String)
    (u : RequestURL) (h : st.user = none) :
    ((login team st nextp (some s) u (.ok ())).1.next_url
        = some (if s = "" then nextp else s))
    ∧ ((login team st nextp none u (.ok ())).1.next_url = some nextp)
    ∧ ((login team st "/" none u (.ok ())).1.next_url = some "/")
    ∧ (∀ completed : Except String ProviderResponse,
        (callback team (login team st "/" none u (.ok ())).1 completed).2
            = .redirect "/"
        ∨ ∃ code detail,
            (callback team (login team st "/" none u (.ok ())).1 completed).2
              = .error code detail) := by
  have hs : st.user.isSome = false := by simp [h]
  refine ⟨?_, ?_, ?_, ?_⟩
  · simp [login, hs, initiate_login, pyOrStr]
  · simp [login, hs, initiate_login, pyOrStr]
  · simp [login, hs, initiate_login, pyOrStr]
  · intro completed
    have hst : (login team st "/" none u (.ok ())).1.next_url = some "/" := by
      simp [login, hs, initiate_login, pyOrStr]
    cases hres : handle_callback team completed with
    | ok user_info =>
        left
        simp [callback, hres, hst]
    | httpError code detail =>
        right
        exact ⟨code, detail, by simp [callback, hres]⟩

/-- Claim C10, witness: a concrete login with an empty `next_url` and
`next=/a` stores `"/a"`, absent `next_url` stores `next`, and the
neither-parameter flow stores `"/"`. -/
theorem c10_amended_witness :
    ((login SSO_TEAM ⟨none, none⟩ "/a" (some "") ⟨"https", "h"⟩ (.ok ())).1.next_url
        = some (if ("" : String) = "" then "/a" else ""))
    ∧ ((login SSO_TEAM ⟨none, none⟩ "/a" none ⟨"https", "h"⟩ (.ok ())).1.next_url
        = some "/a")
    ∧ ((login SSO_TEAM ⟨none, none⟩ "/" none ⟨"https", "h"⟩ (.ok ())).1.next_url
        = some "/")
    ∧ (∀ completed : Except String ProviderResponse,
        (callback SSO_TEAM (login SSO_TEAM ⟨none, none⟩ "/" none ⟨"https", "h"⟩ (.ok ())).1
            completed).2 = .redirect "/"
        ∨ ∃ code detail,
            (callback SSO_TEAM (login SSO_TEAM ⟨none, none⟩ "/" none ⟨"https", "h"⟩ (.ok ())).1
              completed).2 = .error code detail) :=
  c10_amended SSO_TEAM ⟨none, none⟩ "/a" "" ⟨"https", "h"⟩ rfl

end SessionManager
